import Mathlib

/-!
Verification development for the XMPP error-handling module
(pyxmpp/error.py): wire-format error elements versus structured
error values, covering stream-level and stanza-level errors.
-/

/-- Left brace character as a string. -/
def lb : String := "\x7b"

/-- Right brace character as a string. -/
def rb : String := "\x7d"

/-- Attribute value of an XML element: the source stores both strings
(wire attributes) and integers (legacy codes set by `as_xml`). -/
inductive AttrVal where
  | s (v : String)
  | i (n : Nat)
deriving DecidableEq, Repr

/-- XML element: qualified tag, attribute map, child elements, text content.
Models the subset of ElementTree behaviour the source uses. -/
inductive Elem where
  | mk (tag : String) (attrs : List (String × AttrVal))
       (children : List Elem) (content : Option String)

/-- Tag of an element. -/
def Elem.tag : Elem → String
  | .mk t _ _ _ => t

/-- Attribute list of an element. -/
def Elem.attrs : Elem → List (String × AttrVal)
  | .mk _ a _ _ => a

/-- Child list of an element. -/
def Elem.children : Elem → List Elem
  | .mk _ _ c _ => c

/-- Text content of an element. -/
def Elem.content : Elem → Option String
  | .mk _ _ _ x => x

/-- Models `element.get(key)` of ElementTree. -/
def Elem.get (e : Elem) (k : String) : Option AttrVal :=
  e.attrs.lookup k

/-- Models `element.set(key, value)` of ElementTree: replaces any previous
binding of the key. -/
def Elem.setAttr (e : Elem) (k : String) (a : AttrVal) : Elem :=
  .mk e.tag (e.attrs.filter (fun p => !(p.1 == k)) ++ [(k, a)]) e.children e.content

/-- Helper for `pyStartsWith`: the first list is a leading segment of the second. -/
def listLeads : List Char → List Char → Bool
  | [], _ => true
  | _ :: _, [] => false
  | a :: pre, b :: s => a == b && listLeads pre s

/-- Models Python `s.startswith(pre)`. -/
def pyStartsWith (s pre : String) : Bool :=
  listLeads pre.data s.data

/-- Splits a character list at the first occurrence of the separator,
returning the parts before and after it, or `none` when the separator is
absent. Models Python `s.split(sep, 1)` for a one-character separator. -/
def splitOnceChar (sep : Char) : List Char → Option (List Char × List Char)
  | [] => none
  | c :: rest =>
    if c == sep then some ([], rest)
    else
      match splitOnceChar sep rest with
      | none => none
      | some (a, b) => some (c :: a, b)

/-- Python dynamic failure raised while the module code runs. -/
inductive PyErr where
  | nameError (n : String)
  | valueError
  | typeError
  | keyError
  | attributeError
deriving DecidableEq, Repr

/-- Python truthiness of an optional string (None and the empty string are falsy). -/
def pyTruthyS : Option String → Bool
  | none => false
  | some s => !(s == "")

/-- Python truthiness of an attribute value (empty string and zero are falsy). -/
def pyTruthyA : AttrVal → Bool
  | .s v => !(v == "")
  | .i n => !(n == 0)

/-- Python truthiness of an optional attribute value. -/
def pyTruthyOA : Option AttrVal → Bool
  | none => false
  | some a => pyTruthyA a

/-- Stream namespace. Modelled from the spec: the constants module of the
repository is not among the sources; this is the standard stream namespace
of the protocol, used only to build the outer stream error qualified name. -/
def STREAM_NS : String := "http://etherx.jabber.org/streams"

/-- Stream error condition namespace. The value is pinned by the literals in
error.py itself (OBSOLETE_CONDITIONS and UNDEFINED_STREAM_CONDITION spell it
out), though the constant is imported from the missing constants module. -/
def STREAM_ERROR_NS : String := "urn:ietf:params:xml:ns:xmpp-streams"

/-- Stanza error condition namespace, likewise pinned by literals in error.py. -/
def STANZA_ERROR_NS : String := "urn:ietf:params:xml:ns:xmpp-stanzas"

/-- Qualified-name wire format is `{namespace-uri}local-name`; a QNP constant
is the brace-wrapped namespace used as a tag front segment. -/
def STREAM_QNP : String := lb ++ STREAM_NS ++ rb

/-- Stream error condition QNP. -/
def STREAM_ERROR_QNP : String := lb ++ STREAM_ERROR_NS ++ rb

/-- Stanza error condition QNP. -/
def STANZA_ERROR_QNP : String := lb ++ STANZA_ERROR_NS ++ rb

/-- Client stanza dialect QNP. Modelled from the spec: constants module absent
from the sources; the client dialect namespace of the protocol. -/
def STANZA_CLIENT_QNP : String := lb ++ "jabber:client" ++ rb

/-- Sanctioned stanza namespaces. Modelled from the spec: client and server
dialects sharing identical error semantics. -/
def STANZA_NAMESPACES : List String := ["jabber:client", "jabber:server"]

/-- STREAM_ERRORS table of error.py: stream condition name to default message. -/
def STREAM_ERRORS : List (String × String) := [
  ("bad-format", "Received XML cannot be processed"),
  ("bad-namespace-prefix", "Bad namespace prefix"),
  ("conflict", "Closing stream because of conflicting stream being opened"),
  ("connection-timeout", "Connection was idle too long"),
  ("host-gone", "Hostname is no longer hosted on the server"),
  ("host-unknown", "Hostname requested is not known to the server"),
  ("improper-addressing", "Improper addressing"),
  ("internal-server-error", "Internal server error"),
  ("invalid-from", "Invalid sender address"),
  ("invalid-namespace", "Invalid namespace"),
  ("invalid-xml", "Invalid XML"),
  ("not-authorized", "Not authorized"),
  ("not-well-formed", "XML sent by client is not well formed"),
  ("policy-violation", "Local policy violation"),
  ("remote-connection-failed", "Remote connection failed"),
  ("reset", "Stream reset"),
  ("resource-constraint", "Remote connection failed"),
  ("restricted-xml", "Restricted XML received"),
  ("see-other-host", "Redirection required"),
  ("system-shutdown", "The server is being shut down"),
  ("undefined-condition", "Unknown error"),
  ("unsupported-encoding", "Unsupported encoding"),
  ("unsupported-feature", "Unsupported feature"),
  ("unsupported-stanza-type", "Unsupported stanza type"),
  ("unsupported-version", "Unsupported protocol version")]

/-- STANZA_ERRORS table of error.py: stanza condition name to
(default message, default error type, default legacy code). -/
def STANZA_ERRORS : List (String × String × String × Nat) := [
  ("bad-request", "Bad request", "modify", 400),
  ("conflict", "Named session or resource already exists", "cancel", 409),
  ("feature-not-implemented", "Feature requested is not implemented", "cancel", 501),
  ("forbidden", "You are forbidden to perform requested action", "auth", 403),
  ("gone", "Recipient or server can no longer be contacted at this address", "modify", 302),
  ("internal-server-error", "Internal server error", "wait", 500),
  ("item-not-found", "Item not found", "cancel", 404),
  ("jid-malformed", "JID malformed", "modify", 400),
  ("not-acceptable", "Requested action is not acceptable", "modify", 406),
  ("not-allowed", "Requested action is not allowed", "cancel", 405),
  ("not-authorized", "Not authorized", "auth", 401),
  ("policy-violation", "Policy violation", "cancel", 405),
  ("recipient-unavailable", "Recipient is not available", "wait", 404),
  ("redirect", "Redirection", "modify", 302),
  ("registration-required", "Registration required", "auth", 407),
  ("remote-server-not-found", "Remote server not found", "cancel", 404),
  ("remote-server-timeout", "Remote server timeout", "wait", 504),
  ("resource-constraint", "Resource constraint", "wait", 500),
  ("service-unavailable", "Service is not available", "cancel", 503),
  ("subscription-required", "Subscription is required", "auth", 407),
  ("undefined-condition", "Unknown error", "cancel", 500),
  ("unexpected-request", "Unexpected request", "wait", 400)]

/-- STREAM_ERRORS_Q of error.py: the same table keyed by qualified names. -/
def STREAM_ERRORS_Q : List (String × String) :=
  STREAM_ERRORS.map (fun p => (STREAM_ERROR_QNP ++ p.1, p.2))

/-- STANZA_ERRORS_Q of error.py: the same table keyed by qualified names. -/
def STANZA_ERRORS_Q : List (String × String × String × Nat) :=
  STANZA_ERRORS.map (fun p => (STANZA_ERROR_QNP ++ p.1, p.2))

/-- UNDEFINED_STREAM_CONDITION of error.py. -/
def UNDEFINED_STREAM_CONDITION : String :=
  STREAM_ERROR_QNP ++ "undefined-condition"

/-- UNDEFINED_STANZA_CONDITION of error.py. -/
def UNDEFINED_STANZA_CONDITION : String :=
  STANZA_ERROR_QNP ++ "undefined-condition"

/-- OBSOLETE_CONDITIONS of error.py: deprecated qualified condition names and
their canonical replacements (renamed between protocol revisions). -/
def OBSOLETE_CONDITIONS : List (String × String) := [
  (STREAM_ERROR_QNP ++ "xml-not-well-formed", STREAM_ERROR_QNP ++ "not-well-formed"),
  (STREAM_ERROR_QNP ++ "invalid-id", UNDEFINED_STREAM_CONDITION),
  (STANZA_ERROR_QNP ++ "payment-required", UNDEFINED_STANZA_CONDITION)]

/-- LEGACY_CODES of error.py: integer keys to qualified stanza condition names. -/
def LEGACY_CODES : List (Nat × String) := [
  (302, STANZA_ERROR_QNP ++ "redirect"),
  (400, STANZA_ERROR_QNP ++ "bad-request"),
  (401, STANZA_ERROR_QNP ++ "not-authorized"),
  (402, STANZA_ERROR_QNP ++ "payment-required"),
  (403, STANZA_ERROR_QNP ++ "forbidden"),
  (404, STANZA_ERROR_QNP ++ "item-not-found"),
  (405, STANZA_ERROR_QNP ++ "not-allowed"),
  (406, STANZA_ERROR_QNP ++ "not-acceptable"),
  (407, STANZA_ERROR_QNP ++ "registration-required"),
  (408, STANZA_ERROR_QNP ++ "remote-server-timeout"),
  (409, STANZA_ERROR_QNP ++ "conflict"),
  (500, STANZA_ERROR_QNP ++ "internal-server-error"),
  (501, STANZA_ERROR_QNP ++ "feature-not-implemented"),
  (502, STANZA_ERROR_QNP ++ "service-unavailable"),
  (503, STANZA_ERROR_QNP ++ "service-unavailable"),
  (504, STANZA_ERROR_QNP ++ "remote-server-timeout"),
  (510, STANZA_ERROR_QNP ++ "service-unavailable")]

/-- Category descriptor: the per-class qualified-name constants
(error_qname, text_qname, cond_qname front segment) of ErrorElement. -/
structure Descr where
  errorQname : String
  textQname : String
  condPre : String

/-- Class constants of StreamErrorElement. -/
def streamDescr : Descr :=
  ⟨STREAM_QNP ++ "error", STREAM_QNP ++ "text", STREAM_ERROR_QNP⟩

/-- Structured error value shared by both kinds: the condition element, the
(language, description) text pairs, and the custom condition elements. -/
structure ErrorValue where
  condition : Elem
  text : List (Option String × String)
  custom_condition : List Elem

/-- Models the child-classification loop of ErrorElement._from_xml
(error.py lines 266-286). Children whose tag begins with the condition QNP
update the condition slot: the first is kept (a deep copy in the source), any
later one is only logged and skipped. A child equal to text_qname reaches
`child.get(XML_LANG_QNAME, None)` (line 273): the name XML_LANG_QNAME is
neither defined in error.py nor imported, so Python raises NameError there.
Every other child evaluates the tuple at line 278, which reads
STANZA_SERVER_QNP, likewise never defined or imported: NameError as well, so
the custom-condition append at line 286 is unreachable. -/
def classifyChildren (d : Descr) : List Elem → Option Elem → Except PyErr (Option Elem)
  | [], cond => .ok cond
  | child :: rest, cond =>
    if pyStartsWith child.tag d.condPre then
      match cond with
      | some c => classifyChildren d rest (some c)
      | none => classifyChildren d rest (some child)
    else if child.tag == d.textQname then
      .error (.nameError "XML_LANG_QNAME")
    else
      .error (.nameError "STANZA_SERVER_QNP")

/-- Models ErrorElement._from_xml (error.py lines 254-291). After the child
loop, a missing condition is synthesized as undefined-condition. Line 290
tests the condition tag against OBSOLETE_CONDITIONS; inside that branch,
line 291 evaluates `OBSOLETE_CONDITIONS[condition.tag]` where `condition` is
an unbound local name (the attribute is `self.condition`), so Python raises
NameError — and even with the name repaired the computed replacement is bound
to the never-used local `new_cond_name` and the condition is left unchanged. -/
def ErrorElement.fromXml (d : Descr) (element : Elem) : Except PyErr ErrorValue :=
  if !(element.tag == d.errorQname) then .error .valueError
  else
    match classifyChildren d element.children none with
    | .error e => .error e
    | .ok cond? =>
      let condition := match cond? with
        | some c => c
        | none => Elem.mk (d.condPre ++ "undefined-condition") [] [] none
      if (OBSOLETE_CONDITIONS.lookup condition.tag).isSome then
        .error (.nameError "condition")
      else
        .ok ⟨condition, [], []⟩

/-- Models the tail of ErrorElement.__init__ (error.py lines 250-252): with a
truthy description the source filters self.text and then calls
`self.text.append(lang, description)` — two positional arguments to
list.append, which Python rejects with TypeError. -/
def descriptionStep (v : ErrorValue) (description : Option String) :
    Except PyErr ErrorValue :=
  if pyTruthyS description then .error .typeError else .ok v

/-- Extracts the text after the first right brace of a qualified name:
models `tag.split(u"}", 1)[1]` in the condition_name property (error.py
line 297); `none` stands for the IndexError Python raises when the tag
holds no right brace. -/
def ErrorValue.condition_name (v : ErrorValue) : Option String :=
  match splitOnceChar '\x7d' v.condition.tag.data with
  | some (_, after) => some (String.mk after)
  | none => none

/-- Models ErrorElement.get_description (error.py lines 299-313): first pair
whose language equals the requested one, else the first pair, else a pair of
empty slots when no text is stored. -/
def ErrorElement.get_description (v : ErrorValue) (lang : Option String) :
    Option String × Option String :=
  if v.text.isEmpty then (none, none)
  else
    match v.text.find? (fun t => t.1 == lang) with
    | some t => (t.1, some t.2)
    | none =>
      match v.text with
      | t :: _ => (t.1, some t.2)
      | [] => (none, none)

/-- Models ErrorElement.as_xml (error.py lines 333-343): a fresh outer error
element, the condition appended (a deep copy in the source), then one text
child per stored pair. The body of the text loop builds the attribute
map `{ XML_LANG_QNAME: lang }` — XML_LANG_QNAME is an unbound name in this
module, so the first stored text pair raises NameError. Note the source
never visits self.custom_condition here: custom conditions are not encoded. -/
def ErrorElement.as_xml (d : Descr) (v : ErrorValue) : Except PyErr Elem :=
  match v.text with
  | [] => .ok (Elem.mk d.errorQname [] [v.condition] none)
  | _ :: _ => .error (.nameError "XML_LANG_QNAME")

/-- Models StreamErrorElement.__init__ on a condition-name string (error.py
lines 350-366 with ErrorElement.__init__): vocabulary check, then a fresh
condition element, then the description step. -/
def StreamErrorElement.fromName (cond : String) (description lang : Option String) :
    Except PyErr ErrorValue :=
  if (STREAM_ERRORS.lookup cond).isNone then .error .valueError
  else
    descriptionStep ⟨Elem.mk (STREAM_ERROR_QNP ++ cond) [] [] none, [], []⟩
      description

/-- Models StreamErrorElement.__init__ on an element: ErrorElement.__init__
decodes via _from_xml, then runs the description step. -/
def StreamErrorElement.fromElement (element : Elem) (description lang : Option String) :
    Except PyErr ErrorValue :=
  match ErrorElement.fromXml streamDescr element with
  | .error e => .error e
  | .ok v => descriptionStep v description

/-- Stanza error value: the shared fields plus the per-instance qualified
names (rebound in __init__ for sanctioned dialect namespaces), the resolved
error type and the resolved legacy code. Both resolved fields are always set
once __init__ completes (table defaults fill any gap). -/
structure StanzaError where
  val : ErrorValue
  errorQname : String
  textQname : String
  error_type : AttrVal
  legacy_code : AttrVal

/-- Models the membership test `legacy_code in LEGACY_CODES` at error.py
line 451. The keys of LEGACY_CODES are Python integers while
`element.get(u"code")` yields a string for any attribute read from a parsed
element, and in Python no str equals an int, so the test only holds for an
integer value. -/
def legacyIntMember : Option AttrVal → Bool
  | some (.i n) => (LEGACY_CODES.lookup n).isSome
  | _ => false

/-- Extracts `element_or_cond.tag[1:].split(u"}", 1)[0]` (error.py line 416):
the namespace part of a qualified tag. -/
def nsOfTag (tag : String) : String :=
  match splitOnceChar '\x7d' (tag.data.drop 1) with
  | some (ns, _) => String.mk ns
  | none => String.mk (tag.data.drop 1)

/-- Models StanzaErrorElement.__init__ on a condition-name string (error.py
lines 393-433): vocabulary check, fresh condition element, description step,
then resolution of error type and legacy code from the registry (the wire
tiers are absent on this path; the explicit error_type argument overrides,
then a falsy error type falls back to the table default). -/
def StanzaErrorElement.fromName (cond : String)
    (description lang error_type_arg : Option String) :
    Except PyErr StanzaError :=
  if (STANZA_ERRORS.lookup cond).isNone then .error .valueError
  else
    let v : ErrorValue := ⟨Elem.mk (STANZA_ERROR_QNP ++ cond) [] [] none, [], []⟩
    match descriptionStep v description with
    | .error e => .error e
    | .ok v =>
      let condKey := if (STANZA_ERRORS_Q.lookup v.condition.tag).isSome
        then v.condition.tag else UNDEFINED_STANZA_CONDITION
      match STANZA_ERRORS_Q.lookup condKey with
      | none => .error .keyError
      | some entry =>
        let et2 : Option AttrVal := match error_type_arg with
          | some t => some (.s t)
          | none => none
        let error_type := if pyTruthyOA et2 then et2.getD (.s "")
          else .s entry.2.1
        .ok ⟨v, STANZA_CLIENT_QNP ++ "error", STANZA_CLIENT_QNP ++ "text",
             error_type, .i entry.2.2⟩

/-- Models StanzaErrorElement.__init__ on an element (error.py lines 393-433
with StanzaErrorElement._from_xml, lines 435-452). Steps, in source order:
namespace sanction check and per-instance qualified names; the shared decode;
the wire `type` and `code` attributes (kept only when truthy); the
legacy-code-upgrade test — its membership half compares the attribute value
with the integer keys of LEGACY_CODES (see `legacyIntMember`), and were the
branch ever taken, `self.condition = LEGACY_CODES[legacy_code]` would store a
plain string whose missing `.tag` then raises AttributeError at line 426;
the description step; finally error type and legacy code resolution, with
the explicit argument overriding the wire value and table defaults filling
falsy slots. -/
def StanzaErrorElement.fromElement (element : Elem)
    (description lang error_type_arg : Option String) :
    Except PyErr StanzaError :=
  if !(pyStartsWith element.tag lb) then .error .valueError
  else
    let ns := nsOfTag element.tag
    if !(STANZA_NAMESPACES.contains ns) then .error .valueError
    else
      let d : Descr := ⟨lb ++ ns ++ rb ++ "error", lb ++ ns ++ rb ++ "text",
                        STANZA_ERROR_QNP⟩
      match ErrorElement.fromXml d element with
      | .error e => .error e
      | .ok v =>
        let etWire := element.get "type"
        let lcWire := element.get "code"
        let upgraded := pyTruthyOA lcWire
          && (v.condition.tag == UNDEFINED_STANZA_CONDITION)
          && legacyIntMember lcWire
        match descriptionStep v description with
        | .error e => .error e
        | .ok v =>
          if upgraded then .error .attributeError
          else
            let condKey := if (STANZA_ERRORS_Q.lookup v.condition.tag).isSome
              then v.condition.tag else UNDEFINED_STANZA_CONDITION
            match STANZA_ERRORS_Q.lookup condKey with
            | none => .error .keyError
            | some entry =>
              let et1 : Option AttrVal :=
                if pyTruthyOA etWire then etWire else none
              let et2 : Option AttrVal := match error_type_arg with
                | some t => some (.s t)
                | none => et1
              let error_type := if pyTruthyOA et2 then et2.getD (.s "")
                else .s entry.2.1
              let lc1 : Option AttrVal :=
                if pyTruthyOA lcWire then lcWire else none
              let legacy_code := if pyTruthyOA lc1 then lc1.getD (.s "")
                else .i entry.2.2
              .ok ⟨v, d.errorQname, d.textQname, error_type, legacy_code⟩

/-- Models StanzaErrorElement.as_xml (error.py lines 465-481): the shared
encoding, then the `type` attribute is always set; with legacy output the
local `code` is rebound to a table default when falsy — a lookup that can
raise KeyError for an unrecognized condition — but the attribute itself is
set from `self._legacy_code` either way (line 480). -/
def StanzaErrorElement.as_xml (s : StanzaError) (legacy : Bool) :
    Except PyErr Elem :=
  match ErrorElement.as_xml ⟨s.errorQname, s.textQname, STANZA_ERROR_QNP⟩ s.val with
  | .error e => .error e
  | .ok r =>
    let r := r.setAttr "type" s.error_type
    if legacy then
      if pyTruthyA s.legacy_code then .ok (r.setAttr "code" s.legacy_code)
      else
        match STANZA_ERRORS_Q.lookup s.val.condition.tag with
        | none => .error .keyError
        | some _ => .ok (r.setAttr "code" s.legacy_code)
    else .ok r

/-- Models ErrorElement.add_custom_condition (error.py lines 315-324) in a
store-passing style that makes Python object identity visible: elements owned
by the caller live in an external store indexed by object id, and the source
line `self.custom_condition.append(element)` stores the passed object itself
— no deep copy — so the value keeps a reference into the store. -/
def add_custom_condition (refs : List Nat) (element : Nat) : List Nat :=
  refs ++ [element]

/-- Content of the retained custom-condition references under a given state
of the external store: what the error value actually exposes after the
elements of the caller were possibly mutated. -/
def customContent (store : Nat → Elem) (refs : List Nat) : List Elem :=
  refs.map store

/-- Stream error element carrying the deprecated condition name
xml-not-well-formed, the decode input of claim C1. -/
def elemObsolete : Elem :=
  Elem.mk (STREAM_QNP ++ "error") []
    [Elem.mk (STREAM_ERROR_QNP ++ "xml-not-well-formed") [] [] none] none

/-- Stanza error element bearing code 404 and no condition child, the decode
input of claim C2. -/
def elemCode404 : Elem :=
  Elem.mk (STANZA_CLIENT_QNP ++ "error") [("code", .s "404")] [] none

/-- Condition element used by the encoding claim C3. -/
def condBadFormat : Elem := Elem.mk (STREAM_ERROR_QNP ++ "bad-format") [] [] none

/-- Custom condition element outside every reserved namespace, used by C3. -/
def customExtra : Elem :=
  Elem.mk (lb ++ "http://example.org/x" ++ rb ++ "extra") [] [] none

/-- Stream error element with one text child, the decode input of claim C4. -/
def elemWithText : Elem :=
  Elem.mk (STREAM_QNP ++ "error") []
    [Elem.mk (STREAM_QNP ++ "text") [] [] (some "Hello")] none

/-- Construct-encode-decode pipeline of claim C5 for one stream condition name. -/
def streamRound (name : String) : Except PyErr ErrorValue :=
  match StreamErrorElement.fromName name none none with
  | .error e => .error e
  | .ok v =>
    match ErrorElement.as_xml streamDescr v with
    | .error e => .error e
    | .ok el => StreamErrorElement.fromElement el none none

/-- Pipeline of claim C6 for one stanza condition name: construct with no
explicit error type, encode with legacy output, report the resolved error
type and the emitted code attribute. -/
def stanzaDefaults (name : String) : Option (AttrVal × Option AttrVal) :=
  match StanzaErrorElement.fromName name none none none with
  | .error _ => none
  | .ok s =>
    match StanzaErrorElement.as_xml s true with
    | .error _ => none
    | .ok el => some (s.error_type, el.get "code")

/-- Stream error element with two condition-namespace children whose first
one bears an obsolete name: the counterexample input of claim C7. -/
def elemTwoCondObsolete : Elem :=
  Elem.mk (STREAM_QNP ++ "error") []
    [Elem.mk (STREAM_ERROR_QNP ++ "xml-not-well-formed") [] [] none,
     Elem.mk (STREAM_ERROR_QNP ++ "bad-format") [] [] none] none

/-- Stream error element with two canonical condition-namespace children,
the witness input for the amended claim C7. -/
def elemTwoCond : Elem :=
  Elem.mk (STREAM_QNP ++ "error") []
    [condBadFormat, Elem.mk (STREAM_ERROR_QNP ++ "conflict") [] [] none] none

/-- Condition element for the get_description instances of claim C8. -/
def condC8 : Elem := Elem.mk (STREAM_ERROR_QNP ++ "undefined-condition") [] [] none

/-- Element content the caller of add_custom_condition passes in, before the
caller mutates it (claim C9). -/
def c9Before : Nat → Elem :=
  fun _ => Elem.mk (lb ++ "http://example.org/x" ++ rb ++ "custom") [] [] none

/-- Store state after the caller mutated its element object: same object id,
different tag (claim C9). -/
def c9After : Nat → Elem :=
  fun _ => Elem.mk (lb ++ "http://example.org/x" ++ rb ++ "changed") [] [] none

/-- Helper for the amended claim C7: once a condition is held, a further run
of condition-namespace children leaves the classification unchanged
(duplicates are logged and skipped, error.py lines 268-270). -/
theorem classifyChildren_keeps (d : Descr) (c : Elem) :
    ∀ xs : List Elem, (∀ x ∈ xs, pyStartsWith x.tag d.condPre = true) →
      classifyChildren d xs (some c) = .ok (some c) := by
  intro xs
  induction xs with
  | nil => intro _; rfl
  | cons a t ih =>
    intro h
    have ha := h a (List.mem_cons_self a t)
    simp only [classifyChildren, ha, if_true]
    exact ih fun x hx => h x (List.mem_cons_of_mem a hx)

/-- Helper for claim C8: the first element satisfying a test is the head of
the sublist of elements satisfying it. -/
theorem find?_eq_filter_head? {α : Type} (p : α → Bool) (l : List α) :
    l.find? p = (l.filter p).head? := by
  induction l with
  | nil => rfl
  | cons a t ih =>
    cases ha : p a with
    | true =>
      rw [List.find?_cons_of_pos t ha, List.filter_cons_of_pos ha, List.head?_cons]
    | false =>
      rw [List.find?_cons_of_neg t (by simp [ha]),
          List.filter_cons_of_neg (by simp [ha]), ih]

/-- Claim C1: the claim says a decoded error element whose condition bears a
deprecated name from the Obsolete-Condition Normalizer map yields the
canonical replacement. The code instead raises NameError there: line 291 of
error.py reads the unbound local `condition`, and even with that repaired the
replacement would be bound to an unused local and dropped. The map does hold
the entry, yet decoding the example input fails instead of normalizing. -/
theorem c1_obsolete_normalizer_dead :
    OBSOLETE_CONDITIONS.lookup (STREAM_ERROR_QNP ++ "xml-not-well-formed")
      = some (STREAM_ERROR_QNP ++ "not-well-formed") ∧
    StreamErrorElement.fromElement elemObsolete none none
      = .error (.nameError "condition") := by
  exact ⟨by rfl, by rfl⟩

/-- Claim C2: the claim says a stanza error element bearing code 404 and no
recognized structured condition decodes to item-not-found. The Legacy Code
Mapper does hold 404, but its keys are integers while the wire attribute is
a string, so the membership test at error.py line 451 never succeeds and the
decoded condition stays undefined-condition (the raw string 404 is kept as
the legacy code). -/
theorem c2_legacy_code_not_applied :
    LEGACY_CODES.lookup 404 = some (STANZA_ERROR_QNP ++ "item-not-found") ∧
    (StanzaErrorElement.fromElement elemCode404 none none none).toOption.map
        (fun s => (s.val.condition_name, s.error_type, s.legacy_code))
      = some (some "undefined-condition", .s "cancel", .s "404") := by
  exact ⟨by rfl, by rfl⟩

/-- Claim C3: the claim says encoding appends the condition, then the text
children, then each custom condition. The code never visits
self.custom_condition in as_xml, so a value holding one custom condition
encodes to an element whose only child is the condition; and the text loop
evaluates the unbound name XML_LANG_QNAME, so any stored text entry makes
encoding raise NameError instead of emitting a text child. -/
theorem c3_encode_drops_custom_and_text :
    ErrorElement.as_xml streamDescr ⟨condBadFormat, [], [customExtra]⟩
      = .ok (Elem.mk (STREAM_QNP ++ "error") [] [condBadFormat] none) ∧
    ErrorElement.as_xml streamDescr ⟨condBadFormat, [(none, "oops")], []⟩
      = .error (.nameError "XML_LANG_QNAME") := by
  exact ⟨by rfl, by rfl⟩

/-- Claim C4: the claim says a child whose qualified name equals the text
element name of the category decodes into a text entry. The decode branch for
such a child (error.py line 273) evaluates XML_LANG_QNAME, a name neither
defined in the module nor imported, so decoding raises NameError instead. -/
theorem c4_text_decode_name_error :
    StreamErrorElement.fromElement elemWithText none none
      = .error (.nameError "XML_LANG_QNAME") := by
  rfl

/-- Claim C5: for every condition name in the stream vocabulary, construct,
encode, decode yields the same condition name and an empty text sequence,
with no failure at any step. -/
theorem c5_stream_roundtrip :
    ∀ p ∈ STREAM_ERRORS,
      (streamRound p.1).toOption.map (fun v => (v.condition_name, v.text))
        = some (some p.1, []) := by
  decide

/-- Witness for claim C5 at the stream condition bad-format. -/
theorem c5_stream_roundtrip_witness :
    (streamRound "bad-format").toOption.map (fun v => (v.condition_name, v.text))
      = some (some "bad-format", []) :=
  c5_stream_roundtrip ("bad-format", "Received XML cannot be processed")
    (by decide)

/-- Claim C6: every stanza vocabulary name constructed without an explicit
error type resolves its error type to the registry default, and legacy
encoding emits a code attribute equal to the registry default code. -/
theorem c6_stanza_defaults :
    ∀ p ∈ STANZA_ERRORS,
      stanzaDefaults p.1 = some (.s p.2.2.1, some (.i p.2.2.2)) := by
  decide

/-- Witness for claim C6 at the stanza condition item-not-found. -/
theorem c6_stanza_defaults_witness :
    stanzaDefaults "item-not-found" = some (.s "cancel", some (.i 404)) :=
  c6_stanza_defaults ("item-not-found", "Item not found", "cancel", 404)
    (by decide)

/-- Counterexample to claim C7 as stated: a stream error element with two
condition-namespace children need not decode successfully — when the first
of them bears an obsolete name the dead normalizer branch raises NameError,
so decoding fails rather than succeeding with the first condition kept. -/
theorem c7_counterexample :
    ErrorElement.fromXml streamDescr elemTwoCondObsolete
      = .error (.nameError "condition") := by
  rfl

/-- Claim C7 as amended: for a decoded error element whose children all lie
in the condition namespace of the category (two or more of them), and whose
first child does not bear an obsolete condition name, decoding succeeds, the
first child becomes the condition, and every later one is logged and
discarded, leaving no other trace in the value. -/
theorem c7_first_condition_kept (d : Descr) (element c : Elem) (rest : List Elem)
    (hch : element.children = c :: rest)
    (htag : element.tag = d.errorQname)
    (htwo : rest.isEmpty = false)
    (hall : element.children.all (fun x => pyStartsWith x.tag d.condPre) = true)
    (hobs : OBSOLETE_CONDITIONS.lookup c.tag = none) :
    ErrorElement.fromXml d element = .ok ⟨c, [], []⟩ := by
  have hall' : ∀ x ∈ element.children, pyStartsWith x.tag d.condPre = true :=
    List.all_eq_true.mp hall
  rw [hch] at hall'
  have hc : pyStartsWith c.tag d.condPre = true :=
    hall' c (List.mem_cons_self c rest)
  have hrest : ∀ x ∈ rest, pyStartsWith x.tag d.condPre = true :=
    fun x hx => hall' x (List.mem_cons_of_mem c hx)
  unfold ErrorElement.fromXml
  rw [htag]
  simp only [beq_self_eq_true, Bool.not_true, Bool.false_eq_true, if_false]
  rw [hch]
  simp only [classifyChildren, hc, if_true]
  rw [classifyChildren_keeps d c rest hrest]
  simp only [hobs, Option.isSome_none, Bool.false_eq_true, if_false]

/-- Witness for the amended claim C7: two canonical stream condition
children; the first is kept, the second is dropped, decoding succeeds. -/
theorem c7_first_condition_kept_witness :
    ErrorElement.fromXml streamDescr elemTwoCond = .ok ⟨condBadFormat, [], []⟩ :=
  c7_first_condition_kept streamDescr elemTwoCond condBadFormat
    [Elem.mk (STREAM_ERROR_QNP ++ "conflict") [] [] none]
    rfl rfl rfl (by rfl) rfl

/-- Claim C8: get_description returns the first text entry whose language tag
equals the preferred one, else the first stored entry, else a pair of empty
slots; in particular the two instances of the claim hold on the entry list
[(no language, Error), (fr, Erreur)]. -/
theorem c8_get_description_spec :
    (∀ (v : ErrorValue) (lang : Option String),
      ErrorElement.get_description v lang =
        match (v.text.filter (fun t => t.1 == lang)).head? with
        | some m => (m.1, some m.2)
        | none =>
          match v.text.head? with
          | some t => (t.1, some t.2)
          | none => (none, none)) ∧
    ErrorElement.get_description ⟨condC8, [(none, "Error"), (some "fr", "Erreur")], []⟩
        (some "fr") = (some "fr", some "Erreur") ∧
    ErrorElement.get_description ⟨condC8, [(none, "Error"), (some "fr", "Erreur")], []⟩
        (some "de") = (none, some "Error") := by
  refine ⟨?_, by rfl, by rfl⟩
  intro v lang
  unfold ErrorElement.get_description
  rw [find?_eq_filter_head?]
  rcases v with ⟨c, txt, cc⟩
  cases txt with
  | nil => rfl
  | cons t ts =>
    simp only [List.isEmpty_cons, Bool.false_eq_true, if_false]
    cases hf : ((t :: ts).filter fun x => x.1 == lang).head? with
    | some m => simp [hf]
    | none => simp [hf]

/-- Claim C9: the claim says custom conditions are deep-copied when appended,
so later mutation of the element of the caller cannot affect the error value.
The source line 324 appends the passed object itself with no copy, so the
retained content tracks the external store: mutating the element object
(same id, new tag) changes what the value exposes. -/
theorem c9_custom_condition_aliases :
    customContent c9Before (add_custom_condition [] 0)
      ≠ customContent c9After (add_custom_condition [] 0) := by
  intro h
  have := congrArg (fun l => l.map Elem.tag) h
  simp only [customContent, add_custom_condition, List.map, c9Before, c9After,
    Elem.tag, List.nil_append] at this
  exact absurd (List.head_eq_of_cons_eq this) (by decide)

/-- Helper for claim C10: the description step with a non-empty description
always raises TypeError (the two-argument list.append at error.py line 252). -/
theorem descriptionStep_truthy (v : ErrorValue) (desc : String)
    (hd : (desc == "") = false) :
    descriptionStep v (some desc) = .error .typeError := by
  simp [descriptionStep, pyTruthyS, hd]

/-- Counterexample to claim C10 as stated: a constructor call with a
non-empty description need not raise TypeError. With a condition name
outside the vocabulary, both constructors raise ValueError at the
vocabulary check (error.py lines 363-365 and 412-414) before the
description step ever runs — and ValueError is not TypeError. -/
theorem c10_counterexample :
    StreamErrorElement.fromName "no-such-condition" (some "x") none
      = .error .valueError ∧
    StanzaErrorElement.fromName "no-such-condition" (some "x") none none
      = .error .valueError ∧
    PyErr.valueError ≠ PyErr.typeError := by
  exact ⟨by rfl, by rfl, by decide⟩

/-- Claim C10 as amended: a constructor call (stream or stanza) with a
non-empty description whose condition name passes the vocabulary check of
the category raises TypeError before completing — the text-entry append is
invoked with two positional arguments (error.py line 252) — while a name
failing that check raises ValueError at the earlier vocabulary test
instead; element-based construction with a non-empty description likewise
never yields a value (TypeError once decode succeeds, the decode failure
otherwise). So in every case no error value carrying the overriding
description is ever produced. -/
theorem c10_description_blocks_construction (sn tn desc : String)
    (lang : Option String) (el : Elem) (ty : Option String)
    (hd : (desc == "") = false)
    (hs : (STREAM_ERRORS.lookup sn).isSome = true)
    (ht : (STANZA_ERRORS.lookup tn).isSome = true) :
    StreamErrorElement.fromName sn (some desc) lang = .error .typeError ∧
    StanzaErrorElement.fromName tn (some desc) lang none = .error .typeError ∧
    (StreamErrorElement.fromElement el (some desc) lang).toOption = none ∧
    (StanzaErrorElement.fromElement el (some desc) lang ty).toOption = none := by
  refine ⟨?_, ?_, ?_, ?_⟩
  · unfold StreamErrorElement.fromName
    cases h : STREAM_ERRORS.lookup sn with
    | none => rw [h] at hs; simp at hs
    | some m => simp [h, descriptionStep, pyTruthyS, hd]
  · unfold StanzaErrorElement.fromName
    cases h : STANZA_ERRORS.lookup tn with
    | none => rw [h] at ht; simp at ht
    | some m => simp [h, descriptionStep, pyTruthyS, hd]
  · unfold StreamErrorElement.fromElement
    cases h : ErrorElement.fromXml streamDescr el with
    | error e => simp [h, Except.toOption]
    | ok v => simp [h, descriptionStep_truthy v desc hd, Except.toOption]
  · unfold StanzaErrorElement.fromElement
    cases hstart : pyStartsWith el.tag lb with
    | false => simp [hstart, Except.toOption]
    | true =>
      cases hns : STANZA_NAMESPACES.contains (nsOfTag el.tag) with
      | false =>
        have hns' : ¬ nsOfTag el.tag ∈ STANZA_NAMESPACES := by simpa using hns
        simp [hstart, hns', Except.toOption]
      | true =>
        have hns' : nsOfTag el.tag ∈ STANZA_NAMESPACES := by simpa using hns
        cases h : ErrorElement.fromXml
            ⟨lb ++ nsOfTag el.tag ++ rb ++ "error",
             lb ++ nsOfTag el.tag ++ rb ++ "text", STANZA_ERROR_QNP⟩ el with
        | error e => simp [hstart, hns', h, Except.toOption]
        | ok v =>
          simp [hstart, hns', h, descriptionStep_truthy v desc hd,
            Except.toOption]

/-- Witness for the amended claim C10 at concrete inputs: vocabulary names
bad-format and bad-request, description x, and an element input. -/
theorem c10_description_blocks_construction_witness :
    StreamErrorElement.fromName "bad-format" (some "x") none
      = .error .typeError ∧
    StanzaErrorElement.fromName "bad-request" (some "x") none none
      = .error .typeError ∧
    (StreamErrorElement.fromElement (Elem.mk "e" [] [] none)
      (some "x") none).toOption = none ∧
    (StanzaErrorElement.fromElement (Elem.mk "e" [] [] none)
      (some "x") none none).toOption = none :=
  c10_description_blocks_construction "bad-format" "bad-request" "x" none
    (Elem.mk "e" [] [] none) none (by rfl) (by rfl) (by rfl)
